import Mathlib

/-!
Verification development for the correlated message delivery engine of the
`edcpy` package (message_handler.py, messaging.py, backend.py).

The Python code is shallowly embedded as follows:

* Time is discretized into poll ticks of one poll interval (0.1 s); a timeout
  of `T` seconds corresponds to `10 * T` ticks, matching the
  `asyncio.sleep(0.1)` poll loop of `MessageHandler.wait_for_message`.
* `RabbitMessage` delivery handles are identified by a natural-number tag;
  `ack()` / `nack()` broker calls are recorded as events in a log.
* Pydantic parsing of a raw payload (`message_class(**payload)`) is modelled
  by an `Option Msg` field of the delivery: `none` means the constructor
  raised, `some m` means it produced the typed message `m`.
* Python attribute probing (`hasattr` / `getattr`) on the duck-typed message
  objects is modelled by `Option (Option String)` fields: `none` means the
  attribute does not exist, `some v` means it exists and holds `v`
  (which may itself be `None`, i.e. `none`).
-/

/-- Model of a parsed message object as seen by `MessageHandler`: only the
two attributes probed by `_extract_message_id` are relevant.  `id` is
`none` when the attribute is absent and `some v` when present with value
`v` (itself optional, since a present field may hold `None`). -/
structure Msg where
  id : Option (Option String)
  transfer_process_id : Option (Option String)
deriving DecidableEq, Repr

/-- Embedding of the `BrokerMessage` dataclass: the parsed message, the
delivery handle (identified by its tag) and the consumed flag. -/
structure BrokerMessage where
  message : Msg
  rabbit_message : Nat
  consumed : Bool := false
deriving DecidableEq, Repr

/-- A broker acknowledgment call attempted on a delivery handle. -/
inductive AckEvent where
  | ack (tag : Nat)
  | nack (tag : Nat)
deriving DecidableEq, Repr

/-- Embedding of `MessageHandler._safe_ack`: in manual-acknowledgment mode it
attempts exactly one `ack()` call on the delivery handle; with
`auto_acknowledge` enabled it performs no broker call. -/
def _safe_ack (auto_acknowledge : Bool) (rabbit_message : Nat) : List AckEvent :=
  if auto_acknowledge then [] else [AckEvent.ack rabbit_message]

/-- Embedding of `MessageHandler._safe_nack`: in manual-acknowledgment mode it
attempts exactly one `nack()` call on the delivery handle; with
`auto_acknowledge` enabled it performs no broker call. -/
def _safe_nack (auto_acknowledge : Bool) (rabbit_message : Nat) : List AckEvent :=
  if auto_acknowledge then [] else [AckEvent.nack rabbit_message]

/-- An inbound broker delivery: the result of parsing its payload with the
handler's message class (`none` when `message_class(**payload)` raises) and
the delivery handle tag. -/
structure Delivery where
  parsed : Option Msg
  rabbit_message : Nat
deriving DecidableEq, Repr

/-- Embedding of `MessageHandler.handle_message`: on parse success a new
pending envelope is appended to `self.messages`; on parse failure the store
is untouched and the delivery is negatively acknowledged via `_safe_nack`.
Returns the updated store and the broker calls performed. -/
def handle_message (auto_acknowledge : Bool) (messages : List BrokerMessage)
    (d : Delivery) : List BrokerMessage × List AckEvent :=
  match d.parsed with
  | some message =>
      (messages ++ [{ message := message, rabbit_message := d.rabbit_message,
                      consumed := false }], [])
  | none => (messages, _safe_nack auto_acknowledge d.rabbit_message)

/-- One step of a sequence of `handle_message` calls: update the store and
append the broker calls to the log. -/
def ingest_step (auto_acknowledge : Bool) (st : List BrokerMessage × List AckEvent)
    (d : Delivery) : List BrokerMessage × List AckEvent :=
  let r := handle_message auto_acknowledge st.1 d
  (r.1, st.2 ++ r.2)

/-- A sequence of `handle_message` calls starting from an empty store,
accumulating the store and the broker calls. -/
def ingest_all (auto_acknowledge : Bool) (ds : List Delivery) :
    List BrokerMessage × List AckEvent :=
  ds.foldl (ingest_step auto_acknowledge) ([], [])

/-- The pending envelope `handle_message` creates for a successfully parsed
delivery. -/
def envelope_of (d : Delivery) (m : Msg) : BrokerMessage :=
  { message := m, rabbit_message := d.rabbit_message, consumed := false }

/-- Embedding of `MessageHandler._extract_message_id`: probe the `id`
attribute first, then `transfer_process_id`, and yield `none` when neither
attribute exists. -/
def _extract_message_id (message : Msg) : Option String :=
  match message.id with
  | some v => v
  | none =>
      match message.transfer_process_id with
      | some v => v
      | none => none

/-- One scan of the store under the lock, as performed by the body of the
`while` loop of `MessageHandler.wait_for_message`: skip consumed envelopes;
with no expected id return the first unconsumed envelope; with an expected
id skip envelopes without an id and return the first whose id matches. -/
def find_unconsumed_match (expected_id : Option String) :
    List BrokerMessage → Option BrokerMessage
  | [] => none
  | broker_message :: rest =>
      if broker_message.consumed then
        find_unconsumed_match expected_id rest
      else
        match expected_id with
        | none => some broker_message
        | some eid =>
            match _extract_message_id broker_message.message with
            | none => find_unconsumed_match expected_id rest
            | some message_id =>
                if message_id = eid then some broker_message
                else find_unconsumed_match expected_id rest

/-- The predicate an envelope must satisfy to be returned by a scan with the
given `expected_id` filter. -/
def matches_wait (expected_id : Option String) (bm : BrokerMessage) : Bool :=
  !bm.consumed &&
    (match expected_id with
     | none => true
     | some eid =>
         match _extract_message_id bm.message with
         | none => false
         | some message_id => message_id == eid)

/-- Outcome of `MessageHandler.wait_for_message`: either an envelope found at
a given poll tick, or `asyncio.TimeoutError` raised at a given poll tick. -/
inductive WaitResult where
  | found (tick : Nat) (broker_message : BrokerMessage)
  | timedOut (tick : Nat)
deriving DecidableEq, Repr

/-- The poll loop of `MessageHandler.wait_for_message`, discretized: at each
tick the loop first checks the deadline (`remaining = 0` means the elapsed
time has reached the timeout, so `asyncio.TimeoutError` is raised), then
scans the store as of that tick, and otherwise sleeps one poll interval.
`storeAt tick` is the content of `self.messages` at that tick. -/
def wait_from (storeAt : Nat → List BrokerMessage) (expected_id : Option String) :
    Nat → Nat → WaitResult
  | 0, tick => WaitResult.timedOut tick
  | remaining + 1, tick =>
      match find_unconsumed_match expected_id (storeAt tick) with
      | some broker_message => WaitResult.found tick broker_message
      | none => wait_from storeAt expected_id remaining (tick + 1)

/-- Embedding of `MessageHandler.wait_for_message` with `timeout_seconds`
seconds of budget: the loop performs one scan per poll interval (0.1 s) and
raises once the elapsed time reaches the timeout, i.e. after `10 * T`
ticks. -/
def wait_for_message (storeAt : Nat → List BrokerMessage) (timeout_seconds : Nat)
    (expected_id : Option String) : WaitResult :=
  wait_from storeAt expected_id (10 * timeout_seconds) 0

/-- Embedding of `MessageHandler.mark_consumed`: set the consumed flag of the
envelope (identified, as in Python, by the object wrapping one broker
delivery, hence by its delivery tag) and prune every consumed envelope from
the store. -/
def mark_consumed (messages : List BrokerMessage) (broker_message : BrokerMessage) :
    List BrokerMessage :=
  (messages.map (fun msg =>
      if msg.rabbit_message = broker_message.rabbit_message then
        { msg with consumed := true }
      else msg)).filter (fun msg => !msg.consumed)

/-- Outcome of the caller-supplied block of a `process_message` session: it
either returns normally or raises. -/
inductive CallbackOutcome where
  | ok
  | raises
deriving DecidableEq, Repr

/-- An exception propagated out of a `process_message` session: the
`asyncio.TimeoutError` of the inner wait, or the caller's re-raised
exception. -/
inductive ProcError where
  | timeout
  | callback
deriving DecidableEq, Repr

/-- Result of a `process_message` session: the exception propagated to the
caller (if any), the broker calls performed, and the final store. -/
structure ProcResult where
  raised : Option ProcError
  events : List AckEvent
  messages : List BrokerMessage
deriving DecidableEq, Repr

/-- Embedding of the `MessageHandler.process_message` async context manager,
for a store that does not change during the session: wait for a matching
envelope (propagating the timeout); hand the message to the caller's block;
on normal return `_safe_ack` then `mark_consumed`; on a raise `_safe_nack`,
`mark_consumed`, and re-raise. -/
def process_message (auto_acknowledge : Bool) (messages : List BrokerMessage)
    (timeout_seconds : Nat) (expected_id : Option String)
    (outcome : CallbackOutcome) : ProcResult :=
  match wait_for_message (fun _ => messages) timeout_seconds expected_id with
  | WaitResult.timedOut _ =>
      { raised := some ProcError.timeout, events := [], messages := messages }
  | WaitResult.found _ broker_message =>
      match outcome with
      | CallbackOutcome.ok =>
          { raised := none
            events := _safe_ack auto_acknowledge broker_message.rabbit_message
            messages := mark_consumed messages broker_message }
      | CallbackOutcome.raises =>
          { raised := some ProcError.callback
            events := _safe_nack auto_acknowledge broker_message.rabbit_message
            messages := mark_consumed messages broker_message }

/-- Embedding of the timeout resolution of `MessageConsumer.get_message` and
`MessageConsumer.wait_for_message`: `timeout = timeout or
self.default_timeout`, so both `None` and the falsy `0` fall back to the
consumer's default timeout. -/
def resolve_timeout (default_timeout : Nat) (timeout : Option Nat) : Nat :=
  match timeout with
  | none => default_timeout
  | some t => if t = 0 then default_timeout else t

/-- Embedding of `MessageConsumer.get_message`: resolve the timeout and run a
`process_message` session on the underlying handler. -/
def get_message (default_timeout : Nat) (auto_acknowledge : Bool)
    (messages : List BrokerMessage) (expected_id : Option String)
    (timeout : Option Nat) (outcome : CallbackOutcome) : ProcResult :=
  process_message auto_acknowledge messages (resolve_timeout default_timeout timeout)
    expected_id outcome

/-- One server-sent event frame emitted by the streaming bridge: a data frame
carrying a correlated envelope, or an error frame. -/
inductive SSEFrame where
  | message (broker_message : BrokerMessage)
  | error
deriving DecidableEq, Repr

/-- Embedding of the control flow of `_stream_pull_messages`: wait (through
the consumer facade) for the envelope correlated to the transfer process id;
on success yield one data frame; on any exception (the timeout included)
yield one error frame.  Teardown of the consumer context swallows its own
failures (`with_consumer_messaging_app` logs and drops them), so no second
frame is emitted after a successful one. -/
def _stream_pull_messages (storeAt : Nat → List BrokerMessage)
    (transfer_process_id : String) (timeout : Nat) : List SSEFrame :=
  match wait_for_message storeAt (resolve_timeout timeout (some timeout))
      (some transfer_process_id) with
  | WaitResult.found _ broker_message => [SSEFrame.message broker_message]
  | WaitResult.timedOut _ => [SSEFrame.error]

/-- Embedding of the control flow of `_stream_push_messages`: wait (through
the consumer facade) for any envelope; on success yield one data frame; on
any exception yield one error frame. -/
def _stream_push_messages (storeAt : Nat → List BrokerMessage) (timeout : Nat) :
    List SSEFrame :=
  match wait_for_message storeAt (resolve_timeout timeout (some timeout)) none with
  | WaitResult.found _ broker_message => [SSEFrame.message broker_message]
  | WaitResult.timedOut _ => [SSEFrame.error]

/-- Maximal runs of alphanumeric characters of a character list, in order;
the accumulator holds the (reversed) run currently being read. -/
def alnumRunsAux : List Char → List Char → List (List Char)
  | [], acc => if acc.isEmpty then [] else [acc.reverse]
  | c :: rest, acc =>
      if c.isAlphanum then alnumRunsAux rest (c :: acc)
      else if acc.isEmpty then alnumRunsAux rest []
      else acc.reverse :: alnumRunsAux rest []

/-- Model of the third-party `slugify` dependency, for the ASCII inputs the
routing keys use: lowercase the string, treat every maximal run of
non-alphanumeric characters as a separator, and join the remaining pieces
with single hyphens. -/
def slugify (s : String) : String :=
  String.intercalate "-"
    ((alnumRunsAux (s.toList.map Char.toLower) []).map List.asString)

/-- Splitting a character list on a separator character, keeping empty
segments, as Python `str.split` with a one-character separator does; the
accumulator holds the (reversed) segment currently being read. -/
def splitCharAux (sep : Char) : List Char → List Char → List (List Char)
  | [], acc => [acc.reverse]
  | c :: rest, acc =>
      if c = sep then acc.reverse :: splitCharAux sep rest []
      else splitCharAux sep rest (c :: acc)

/-- Model of Python `routing_path.split("/")`: the segments between the
slashes, empty segments included. -/
def splitSlash (s : String) : List String :=
  (splitCharAux (Char.ofNat 0x2f) s.toList []).map List.asString

/-- Constant `BASE_HTTP_PULL_QUEUE_ROUTING_KEY` from messaging.py. -/
def BASE_HTTP_PULL_QUEUE_ROUTING_KEY : String := "http.pull"

/-- Constant `BASE_HTTP_PUSH_QUEUE_ROUTING_KEY` from messaging.py. -/
def BASE_HTTP_PUSH_QUEUE_ROUTING_KEY : String := "http.push"

/-- Python truthiness of an `Optional[str]`: falsy when `None` or empty. -/
def strFalsy : Option String → Bool
  | none => true
  | some s => s == ""

/-- Embedding of `ConsumerQueueFactory._build_pull_routing_key`: with a falsy
provider host append the `#` wildcard; otherwise append the slugified host
and then `transfer_process_id or "*"`; join everything with dots. -/
def _build_pull_routing_key (provider_host : Option String)
    (transfer_process_id : Option String) : String :=
  let routing_key_parts := [BASE_HTTP_PULL_QUEUE_ROUTING_KEY]
  let routing_key_parts :=
    if strFalsy provider_host then
      routing_key_parts ++ ["#"]
    else
      routing_key_parts ++ [slugify (provider_host.getD "")] ++
        [if strFalsy transfer_process_id then "*" else transfer_process_id.getD ""]
  String.intercalate "." routing_key_parts

/-- Embedding of `ConsumerQueueFactory._build_push_routing_key`: with a falsy
routing path append the `#` wildcard; otherwise split the path on `/`, drop
the empty segments, and append the remaining segments verbatim; join
everything with dots. -/
def _build_push_routing_key (routing_path : Option String) : String :=
  let routing_key_parts := [BASE_HTTP_PUSH_QUEUE_ROUTING_KEY]
  let routing_key_parts :=
    if strFalsy routing_path then
      routing_key_parts ++ ["#"]
    else
      routing_key_parts ++
        (splitSlash (routing_path.getD "")).filter (fun part => part != "")
  String.intercalate "." routing_key_parts

/-- Definition following the words of claim C6 (and spec sections 3 and 4.1),
for comparison with `_build_push_routing_key`: each non-empty path segment is
slugified before insertion into the routing key. -/
def build_push_routing_key_per_spec (routing_path : Option String) : String :=
  match routing_path with
  | none => "http.push.#"
  | some p =>
      if p == "" then "http.push.#"
      else
        String.intercalate "."
          ("http.push" :: ((splitSlash p).filter (fun part => part != "")).map slugify)

/-! ### Helper lemmas -/

/-- The scan of the store is exactly `List.find?` of `matches_wait`. -/
theorem find_unconsumed_match_eq_find (expected_id : Option String)
    (l : List BrokerMessage) :
    find_unconsumed_match expected_id l = l.find? (matches_wait expected_id) := by
  induction l with
  | nil => rfl
  | cons bm rest ih =>
      cases hc : bm.consumed with
      | true => simp [find_unconsumed_match, List.find?, matches_wait, hc, ih]
      | false =>
          cases expected_id with
          | none => simp [find_unconsumed_match, List.find?, matches_wait, hc]
          | some eid =>
              cases he : _extract_message_id bm.message with
              | none =>
                  simp [find_unconsumed_match, List.find?, matches_wait, hc, he, ih]
              | some mid =>
                  by_cases hm : mid = eid
                  · simp [find_unconsumed_match, List.find?, matches_wait, hc, he, hm]
                  · have hbeq : (mid == eid) = false := beq_eq_false_iff_ne.mpr hm
                    simp [find_unconsumed_match, List.find?, matches_wait, hc, he, hm,
                      hbeq, ih]

/-- A successful `List.find?` splits the list at the first element satisfying
the predicate. -/
theorem find_eq_some_split {α : Type} (p : α → Bool) :
    ∀ (l : List α) (a : α), l.find? p = some a →
      ∃ l1 l2, l = l1 ++ a :: l2 ∧ (∀ x ∈ l1, p x = false) ∧ p a = true := by
  intro l
  induction l with
  | nil => intro a h; simp [List.find?] at h
  | cons b rest ih =>
      intro a h
      cases hb : p b with
      | true =>
          simp [List.find?, hb] at h
          subst h
          refine ⟨[], rest, rfl, ?_, hb⟩
          intro x hx
          cases hx
      | false =>
          simp [List.find?, hb] at h
          obtain ⟨l1, l2, rfl, h1, h2⟩ := ih a h
          refine ⟨b :: l1, l2, rfl, ?_, h2⟩
          intro x hx
          rcases List.mem_cons.mp hx with h | h
          · rw [h]; exact hb
          · exact h1 x h

/-- A member satisfying the predicate makes `List.find?` succeed. -/
theorem find_isSome_of_mem {α : Type} (p : α → Bool) :
    ∀ (l : List α) (a : α), a ∈ l → p a = true → ∃ b, l.find? p = some b := by
  intro l
  induction l with
  | nil => intro a ha; intro _; cases ha
  | cons b rest ih =>
      intro a ha hp
      cases hb : p b with
      | true => exact ⟨b, by simp [List.find?, hb]⟩
      | false =>
          rcases List.mem_cons.mp ha with h | h
          · rw [h] at hp; rw [hp] at hb; cases hb
          · obtain ⟨c, hc⟩ := ih a h hp
            exact ⟨c, by simp [List.find?, hb, hc]⟩

/-- When no scan ever succeeds, the poll loop raises once the deadline is
reached, i.e. after exactly `remaining` further ticks. -/
theorem wait_from_timedOut (storeAt : Nat → List BrokerMessage)
    (expected_id : Option String)
    (h : ∀ t, find_unconsumed_match expected_id (storeAt t) = none) :
    ∀ (remaining tick : Nat),
      wait_from storeAt expected_id remaining tick =
        WaitResult.timedOut (tick + remaining) := by
  intro remaining
  induction remaining with
  | zero => intro tick; simp [wait_from]
  | succ n ih =>
      intro tick
      have hrec := ih (tick + 1)
      simp only [wait_from, h tick, hrec]
      congr 1
      omega

/-- The poll loop returns, at the tick of its arrival, the envelope produced
by the first succeeding scan within the deadline. -/
theorem wait_from_found_first (storeAt : Nat → List BrokerMessage)
    (expected_id : Option String) :
    ∀ (remaining tick t : Nat) (bm : BrokerMessage),
      tick ≤ t → t < tick + remaining →
      (∀ u, tick ≤ u → u < t → find_unconsumed_match expected_id (storeAt u) = none) →
      find_unconsumed_match expected_id (storeAt t) = some bm →
      wait_from storeAt expected_id remaining tick = WaitResult.found t bm := by
  intro remaining
  induction remaining with
  | zero =>
      intro tick t bm h1 h2 _ _
      exact absurd h2 (by omega)
  | succ n ih =>
      intro tick t bm hle hlt hnone hfind
      by_cases ht : t = tick
      · subst ht
        simp [wait_from, hfind]
      · have h0 : find_unconsumed_match expected_id (storeAt tick) = none :=
          hnone tick (le_refl _) (by omega)
        have hrec := ih (tick + 1) t bm (by omega) (by omega)
          (fun u hu1 hu2 => hnone u (by omega) hu2) hfind
        simp [wait_from, h0, hrec]

/-- An envelope returned by the poll loop was returned by the scan of the
store at the returned tick. -/
theorem wait_from_found_inv (storeAt : Nat → List BrokerMessage)
    (expected_id : Option String) :
    ∀ (remaining tick t : Nat) (bm : BrokerMessage),
      wait_from storeAt expected_id remaining tick = WaitResult.found t bm →
      find_unconsumed_match expected_id (storeAt t) = some bm := by
  intro remaining
  induction remaining with
  | zero => intro tick t bm h; simp [wait_from] at h
  | succ n ih =>
      intro tick t bm h
      unfold wait_from at h
      cases hf : find_unconsumed_match expected_id (storeAt tick) with
      | some bm2 =>
          rw [hf] at h
          injection h with h1 h2
          subst h1
          subst h2
          exact hf
      | none =>
          rw [hf] at h
          exact ih (tick + 1) t bm h

/-- An envelope satisfying the id-filtered `matches_wait` predicate carries
exactly the expected extracted id. -/
theorem matches_wait_extract {eid : String} {bm : BrokerMessage}
    (h : matches_wait (some eid) bm = true) :
    _extract_message_id bm.message = some eid := by
  unfold matches_wait at h
  cases he : _extract_message_id bm.message with
  | none => rw [he] at h; simp at h
  | some mid =>
      rw [he] at h
      simp at h
      rw [h.2]

/-- After `mark_consumed`, no envelope of the pruned delivery remains in the
store. -/
theorem mark_consumed_spec (messages : List BrokerMessage) (bm : BrokerMessage) :
    ∀ e ∈ mark_consumed messages bm, e.rabbit_message ≠ bm.rabbit_message := by
  intro e he
  unfold mark_consumed at he
  rw [List.mem_filter] at he
  obtain ⟨hmem, hcons⟩ := he
  rw [List.mem_map] at hmem
  obtain ⟨orig, _, heq⟩ := hmem
  by_cases h : orig.rabbit_message = bm.rabbit_message
  · rw [if_pos h] at heq
    rw [← heq] at hcons
    simp at hcons
  · rw [if_neg h] at heq
    rw [← heq]
    exact h

/-- The store component of a fold of `ingest_step` appends, in arrival order,
one pending envelope per successfully parsed delivery. -/
theorem ingest_foldl_messages (auto_acknowledge : Bool) :
    ∀ (ds : List Delivery) (st : List BrokerMessage × List AckEvent),
      (ds.foldl (ingest_step auto_acknowledge) st).1 =
        st.1 ++ ds.filterMap (fun d => d.parsed.map (envelope_of d)) := by
  intro ds
  induction ds with
  | nil => intro st; simp
  | cons d rest ih =>
      intro st
      rw [List.foldl_cons, ih]
      cases hp : d.parsed with
      | none => simp [ingest_step, handle_message, hp]
      | some m => simp [ingest_step, handle_message, hp, envelope_of]

/-- The store built by a sequence of ingest calls holds, in arrival order,
one pending envelope per successfully parsed delivery. -/
theorem ingest_all_messages (auto_acknowledge : Bool) (ds : List Delivery) :
    (ingest_all auto_acknowledge ds).1 =
      ds.filterMap (fun d => d.parsed.map (envelope_of d)) := by
  unfold ingest_all
  rw [ingest_foldl_messages]
  simp

/-! ### Sample data shared by witnesses and counterexamples -/

/-- Sample message with neither id attribute (like `HttpPushMessage`). -/
def msgNoId : Msg := { id := none, transfer_process_id := none }

/-- Sample message whose `id` attribute holds the given string. -/
def msgWithId (s : String) : Msg :=
  { id := some (some s), transfer_process_id := none }

/-- Sample pending envelope with delivery tag 0. -/
def envA : BrokerMessage := { message := msgNoId, rabbit_message := 0 }

/-- Sample delivery whose payload parses to `msgNoId`, delivery tag 0. -/
def delivA : Delivery := { parsed := some msgNoId, rabbit_message := 0 }

/-! ### Claims -/

/-- Claim C1, amended.  As stated the claim fails at `timeout = 0` (see the
counterexample: the deadline check precedes the first scan, so a pending
matching envelope is not returned).  Amended to strictly positive timeouts:
for every sequence of ingest calls whose resulting store holds at least one
unconsumed envelope matching the wait, `wait_for_message` with a timeout of
at least one second returns, at the very first poll tick (without blocking),
the earliest-arrived unconsumed matching envelope; the store lists envelopes
of successfully parsed deliveries in arrival order, so unfiltered waits
return envelopes in arrival order. -/
theorem C1_wait_returns_earliest_arrived (ds : List Delivery)
    (expected_id : Option String) (timeout_seconds : Nat)
    (hT : 1 ≤ timeout_seconds)
    (hex : ∃ e ∈ (ingest_all false ds).1, matches_wait expected_id e = true) :
    (ingest_all false ds).1 =
      ds.filterMap (fun d => d.parsed.map (envelope_of d)) ∧
    ∃ bm l1 l2,
      wait_for_message (fun _ => (ingest_all false ds).1) timeout_seconds
        expected_id = WaitResult.found 0 bm ∧
      (ingest_all false ds).1 = l1 ++ bm :: l2 ∧
      (∀ e ∈ l1, matches_wait expected_id e = false) ∧
      matches_wait expected_id bm = true := by
  refine ⟨ingest_all_messages false ds, ?_⟩
  obtain ⟨e, he, hme⟩ := hex
  obtain ⟨bm, hbm⟩ := find_isSome_of_mem (matches_wait expected_id) _ e he hme
  have hfind : find_unconsumed_match expected_id (ingest_all false ds).1 = some bm := by
    rw [find_unconsumed_match_eq_find]
    exact hbm
  obtain ⟨l1, l2, hsplit, h1, h2⟩ := find_eq_some_split _ _ _ hbm
  refine ⟨bm, l1, l2, ?_, hsplit, h1, h2⟩
  unfold wait_for_message
  exact wait_from_found_first _ _ (10 * timeout_seconds) 0 0 bm (le_refl 0)
    (by omega) (fun u hu1 hu2 => absurd hu2 (by omega)) hfind

/-- Claim C1 as stated is false at timeout `0`: after ingesting one delivery
the store holds a pending envelope matching the unfiltered wait, yet
`wait_for_message` with timeout `0` raises `asyncio.TimeoutError` on its
first deadline check instead of returning the envelope. -/
theorem C1_counterexample :
    (∃ e ∈ (ingest_all false [delivA]).1, matches_wait none e = true) ∧
    wait_for_message (fun _ => (ingest_all false [delivA]).1) 0 none =
      WaitResult.timedOut 0 := by
  constructor
  · decide
  · decide

/-- Witness for C1: one ingested delivery, unfiltered wait, timeout one
second. -/
theorem C1_witness :
    (ingest_all false [delivA]).1 =
      [delivA].filterMap (fun d => d.parsed.map (envelope_of d)) ∧
    ∃ bm l1 l2,
      wait_for_message (fun _ => (ingest_all false [delivA]).1) 1 none =
        WaitResult.found 0 bm ∧
      (ingest_all false [delivA]).1 = l1 ++ bm :: l2 ∧
      (∀ e ∈ l1, matches_wait none e = false) ∧
      matches_wait none bm = true :=
  C1_wait_returns_earliest_arrived [delivA] none 1 (by decide) (by decide)

/-- Claim C2: in manual-acknowledgment mode, a `process_message` session
whose caller block returns normally issues exactly one acknowledgment (an
`ack`, no `nack`) for the delivered envelope, propagates no exception, and
leaves the store without any envelope of that broker delivery.  The
`Nodup` hypothesis records the invariant that one envelope exists per
broker delivery, under which the tag-based pruning of the model coincides
with the object-identity pruning of the Python code. -/
theorem C2_success_session_acks_and_prunes (messages : List BrokerMessage)
    (timeout_seconds : Nat) (expected_id : Option String) (tick : Nat)
    (bm : BrokerMessage)
    (_hnodup : (messages.map (fun e => e.rabbit_message)).Nodup)
    (hwait : wait_for_message (fun _ => messages) timeout_seconds expected_id =
      WaitResult.found tick bm) :
    (process_message false messages timeout_seconds expected_id
        CallbackOutcome.ok).raised = none ∧
    (process_message false messages timeout_seconds expected_id
        CallbackOutcome.ok).events = [AckEvent.ack bm.rabbit_message] ∧
    ∀ e ∈ (process_message false messages timeout_seconds expected_id
        CallbackOutcome.ok).messages, e.rabbit_message ≠ bm.rabbit_message := by
  unfold process_message
  rw [hwait]
  refine ⟨rfl, by simp [_safe_ack], ?_⟩
  exact mark_consumed_spec messages bm

/-- Witness for C2: one pending envelope, unfiltered session, timeout one
second. -/
theorem C2_witness :
    (process_message false [envA] 1 none CallbackOutcome.ok).raised = none ∧
    (process_message false [envA] 1 none CallbackOutcome.ok).events =
      [AckEvent.ack envA.rabbit_message] ∧
    ∀ e ∈ (process_message false [envA] 1 none CallbackOutcome.ok).messages,
      e.rabbit_message ≠ envA.rabbit_message :=
  C2_success_session_acks_and_prunes [envA] 1 none 0 envA (by decide) (by decide)

/-- Claim C3: in manual-acknowledgment mode, a `process_message` session
whose caller block raises issues exactly one negative acknowledgment (a
`nack`, no `ack`) for the delivered envelope, re-raises the caller's
exception, and still leaves the store without any envelope of that broker
delivery.  The `Nodup` hypothesis records the one-envelope-per-delivery
invariant, as in C2. -/
theorem C3_raising_session_nacks_reraises_prunes (messages : List BrokerMessage)
    (timeout_seconds : Nat) (expected_id : Option String) (tick : Nat)
    (bm : BrokerMessage)
    (_hnodup : (messages.map (fun e => e.rabbit_message)).Nodup)
    (hwait : wait_for_message (fun _ => messages) timeout_seconds expected_id =
      WaitResult.found tick bm) :
    (process_message false messages timeout_seconds expected_id
        CallbackOutcome.raises).raised = some ProcError.callback ∧
    (process_message false messages timeout_seconds expected_id
        CallbackOutcome.raises).events = [AckEvent.nack bm.rabbit_message] ∧
    ∀ e ∈ (process_message false messages timeout_seconds expected_id
        CallbackOutcome.raises).messages, e.rabbit_message ≠ bm.rabbit_message := by
  unfold process_message
  rw [hwait]
  refine ⟨rfl, by simp [_safe_nack], ?_⟩
  exact mark_consumed_spec messages bm

/-- Witness for C3: one pending envelope, unfiltered session, timeout one
second. -/
theorem C3_witness :
    (process_message false [envA] 1 none CallbackOutcome.raises).raised =
      some ProcError.callback ∧
    (process_message false [envA] 1 none CallbackOutcome.raises).events =
      [AckEvent.nack envA.rabbit_message] ∧
    ∀ e ∈ (process_message false [envA] 1 none CallbackOutcome.raises).messages,
      e.rabbit_message ≠ envA.rabbit_message :=
  C3_raising_session_nacks_reraises_prunes [envA] 1 none 0 envA (by decide)
    (by decide)

/-- Claim C4: an ingest call whose payload fails to parse leaves the store
unchanged and, in manual-acknowledgment mode, issues exactly one negative
acknowledgment for the delivery; an ingest call whose payload parses
appends exactly one new pending envelope and issues no broker call. -/
theorem C4_ingest_parse_failure_nacks (messages : List BrokerMessage)
    (d : Delivery) :
    (d.parsed = none →
      handle_message false messages d =
        (messages, [AckEvent.nack d.rabbit_message])) ∧
    ∀ m, d.parsed = some m → ∀ auto_acknowledge,
      handle_message auto_acknowledge messages d =
        (messages ++ [envelope_of d m], []) := by
  constructor
  · intro h
    simp [handle_message, h, _safe_nack]
  · intro m h auto_acknowledge
    simp [handle_message, h, envelope_of]

/-- Witness for C4: a malformed delivery with tag 3, and the well-formed
delivery `delivA`. -/
theorem C4_witness :
    handle_message false [] { parsed := none, rabbit_message := 3 } =
      ([], [AckEvent.nack 3]) ∧
    handle_message false [] delivA = ([envelope_of delivA msgNoId], []) := by
  constructor
  · exact (C4_ingest_parse_failure_nacks [] _).1 rfl
  · have h := (C4_ingest_parse_failure_nacks [] delivA).2 msgNoId rfl false
    simpa using h

/-- Claim C5: a `wait_for_message` call during which no matching pending
envelope is ever present raises `asyncio.TimeoutError`, and the tick at
which it raises (in poll intervals of 0.1 s) is no earlier than the
requested `T` seconds and no later than `T` plus one poll interval. -/
theorem C5_timeout_window (storeAt : Nat → List BrokerMessage)
    (expected_id : Option String) (timeout_seconds : Nat)
    (hnone : ∀ t, find_unconsumed_match expected_id (storeAt t) = none) :
    ∃ raise_tick,
      wait_for_message storeAt timeout_seconds expected_id =
        WaitResult.timedOut raise_tick ∧
      10 * timeout_seconds ≤ raise_tick ∧
      raise_tick ≤ 10 * timeout_seconds + 1 := by
  refine ⟨10 * timeout_seconds, ?_, le_refl _, by omega⟩
  unfold wait_for_message
  rw [wait_from_timedOut storeAt expected_id hnone]
  congr 1
  omega

/-- Witness for C5: an always-empty store and a timeout of one second. -/
theorem C5_witness :
    ∃ raise_tick,
      wait_for_message (fun _ => []) 1 none = WaitResult.timedOut raise_tick ∧
      10 * 1 ≤ raise_tick ∧ raise_tick ≤ 10 * 1 + 1 :=
  C5_timeout_window (fun _ => []) none 1 (fun _ => rfl)

/-- Claim C6, amended.  As stated the claim fails: the push routing-key
builder does not slugify the path segments (see the counterexample), unlike
the pull builder, which slugifies the provider host.  Amended: the builder
returns `http.push` followed by one dot-joined token per non-empty `/`-
separated segment, each inserted verbatim; empty segments from leading,
trailing or doubled slashes are dropped; an absent or empty path yields
`http.push.#`. -/
theorem C6_push_routing_key_segments (p : String) (hp : p ≠ "") :
    _build_push_routing_key none = "http.push.#" ∧
    _build_push_routing_key (some "") = "http.push.#" ∧
    _build_push_routing_key (some p) =
      String.intercalate "."
        ("http.push" :: (splitSlash p).filter (fun part => part != "")) ∧
    _build_push_routing_key (some "a.b/c") = "http.push.a.b.c" := by
  refine ⟨by decide, by decide, ?_, by decide⟩
  have hb : (p == "") = false := beq_eq_false_iff_ne.mpr hp
  simp [_build_push_routing_key, strFalsy, hb, BASE_HTTP_PUSH_QUEUE_ROUTING_KEY]

/-- Claim C6 as stated is false: for the path `data/v1.reports` the code
inserts the segment `v1.reports` verbatim, while the claim requires the
slugified token `v1-reports`. -/
theorem C6_counterexample :
    _build_push_routing_key (some "data/v1.reports") =
      "http.push.data.v1.reports" ∧
    build_push_routing_key_per_spec (some "data/v1.reports") =
      "http.push.data.v1-reports" ∧
    _build_push_routing_key (some "data/v1.reports") ≠
      build_push_routing_key_per_spec (some "data/v1.reports") := by
  exact ⟨by decide, by decide, by decide⟩

/-- Witness for C6: the path `x/y.z`. -/
theorem C6_witness :
    _build_push_routing_key none = "http.push.#" ∧
    _build_push_routing_key (some "") = "http.push.#" ∧
    _build_push_routing_key (some "x/y.z") =
      String.intercalate "."
        ("http.push" :: (splitSlash "x/y.z").filter (fun part => part != "")) ∧
    _build_push_routing_key (some "a.b/c") = "http.push.a.b.c" :=
  C6_push_routing_key_segments "x/y.z" (by decide)

/-- Claim C7: the pull routing-key builder yields `http.pull.#` with no
provider host; with a host it yields `http.pull.` followed by the slugified
host, a dot, and the transfer process id when one is (non-emptily) given,
`*` otherwise; in particular host `foo.bar.com` with id `tx-1` yields
exactly `http.pull.foo-bar-com.tx-1` (dots of the host slugified to
hyphens, the id preserved unchanged). -/
theorem C7_pull_routing_key (host : String) (tpid : Option String)
    (hh : host ≠ "") :
    _build_pull_routing_key none tpid = "http.pull.#" ∧
    _build_pull_routing_key (some host) tpid =
      "http.pull." ++ slugify host ++ "." ++
        (match tpid with
         | none => "*"
         | some t => if t = "" then "*" else t) ∧
    _build_pull_routing_key (some "foo.bar.com") (some "tx-1") =
      "http.pull.foo-bar-com.tx-1" := by
  refine ⟨rfl, ?_, by decide⟩
  have hb : (host == "") = false := beq_eq_false_iff_ne.mpr hh
  have hX : (if strFalsy tpid then "*" else tpid.getD "") =
      (match tpid with
       | none => "*"
       | some t => if t = "" then "*" else t) := by
    cases tpid with
    | none => rfl
    | some t =>
        by_cases ht : t = ""
        · simp [strFalsy, ht]
        · have hbt : (t == "") = false := beq_eq_false_iff_ne.mpr ht
          simp [strFalsy, hbt, ht]
  have hmain : _build_pull_routing_key (some host) tpid =
      String.intercalate "."
        ["http.pull", slugify host, if strFalsy tpid then "*" else tpid.getD ""] := by
    simp [_build_pull_routing_key, strFalsy, hb, BASE_HTTP_PULL_QUEUE_ROUTING_KEY]
  rw [hmain, hX]
  show ("http.pull" ++ "." ++ slugify host ++ "." ++ _ : String) = _
  rw [show ("http.pull" ++ "." : String) = "http.pull." from rfl]

/-- Witness for C7: host `foo.bar.com` and id `tx-1`. -/
theorem C7_witness :
    _build_pull_routing_key none (some "tx-1") = "http.pull.#" ∧
    _build_pull_routing_key (some "foo.bar.com") (some "tx-1") =
      "http.pull." ++ slugify "foo.bar.com" ++ "." ++
        (match (some "tx-1" : Option String) with
         | none => "*"
         | some t => if t = "" then "*" else t) ∧
    _build_pull_routing_key (some "foo.bar.com") (some "tx-1") =
      "http.pull.foo-bar-com.tx-1" :=
  C7_pull_routing_key "foo.bar.com" (some "tx-1") (by decide)

/-- Sample pending envelope whose message carries id `tx-1`, delivery
tag 2. -/
def envTx : BrokerMessage := { message := msgWithId "tx-1", rabbit_message := 2 }

/-- Claim C8: id extraction checks the `id` attribute first, then
`transfer_process_id`, returns `none` when neither exists (without raising,
being a total function); and an id-filtered wait only ever returns an
envelope whose extracted id equals the expected id — in particular an
envelope whose extracted id is `none` is skipped and never returned. -/
theorem C8_extract_id_order_and_skip (m : Msg) (v : Option String)
    (storeAt : Nat → List BrokerMessage) (eid : String)
    (timeout_seconds tick : Nat) (bm : BrokerMessage)
    (hfound : wait_for_message storeAt timeout_seconds (some eid) =
      WaitResult.found tick bm) :
    (m.id = some v → _extract_message_id m = v) ∧
    (m.id = none → m.transfer_process_id = some v → _extract_message_id m = v) ∧
    (m.id = none → m.transfer_process_id = none →
      _extract_message_id m = none) ∧
    _extract_message_id bm.message = some eid := by
  refine ⟨?_, ?_, ?_, ?_⟩
  · intro h
    simp [_extract_message_id, h]
  · intro h1 h2
    simp [_extract_message_id, h1, h2]
  · intro h1 h2
    simp [_extract_message_id, h1, h2]
  · have hfind : find_unconsumed_match (some eid) (storeAt tick) = some bm :=
      wait_from_found_inv storeAt (some eid) (10 * timeout_seconds) 0 tick bm hfound
    rw [find_unconsumed_match_eq_find] at hfind
    obtain ⟨_, _, _, _, hp⟩ := find_eq_some_split _ _ _ hfind
    exact matches_wait_extract hp

/-- Witness for C8: extraction on a message with an id, on a message with no
id attributes, and an id-filtered wait returning the `tx-1` envelope. -/
theorem C8_witness :
    _extract_message_id (msgWithId "a") = some "a" ∧
    _extract_message_id msgNoId = none ∧
    _extract_message_id envTx.message = some "tx-1" := by
  have h1 := C8_extract_id_order_and_skip (msgWithId "a") (some "a")
    (fun _ => [envTx]) "tx-1" 1 0 envTx (by decide)
  have h2 := C8_extract_id_order_and_skip msgNoId none
    (fun _ => [envTx]) "tx-1" 1 0 envTx (by decide)
  exact ⟨h1.1 rfl, h2.2.2.1 rfl rfl, h1.2.2.2⟩

/-- Claim C9: every streaming-bridge session emits exactly one event frame:
a data frame carrying the first correlated envelope when the inner wait
succeeds, otherwise a single error frame; in the no-ingestion case the pull
stream emits the error frame at the tick at which the facade's wait raises,
i.e. exactly at the requested timeout. -/
theorem C9_stream_emits_single_frame (storeAt : Nat → List BrokerMessage)
    (transfer_process_id : String) (timeout : Nat)
    (hnone : ∀ t, find_unconsumed_match (some transfer_process_id) (storeAt t) =
      none) :
    (∀ (sAt : Nat → List BrokerMessage) (tp : String) (tmo : Nat),
        (_stream_pull_messages sAt tp tmo).length = 1) ∧
    (∀ (sAt : Nat → List BrokerMessage) (tmo : Nat),
        (_stream_push_messages sAt tmo).length = 1) ∧
    (∀ (sAt : Nat → List BrokerMessage) (tp : String) (tmo tick : Nat)
        (bm : BrokerMessage),
        wait_for_message sAt (resolve_timeout tmo (some tmo)) (some tp) =
          WaitResult.found tick bm →
        _stream_pull_messages sAt tp tmo = [SSEFrame.message bm]) ∧
    resolve_timeout timeout (some timeout) = timeout ∧
    wait_for_message storeAt timeout (some transfer_process_id) =
      WaitResult.timedOut (10 * timeout) ∧
    _stream_pull_messages storeAt transfer_process_id timeout =
      [SSEFrame.error] := by
  have hres : ∀ tmo : Nat, resolve_timeout tmo (some tmo) = tmo := by
    intro tmo
    simp [resolve_timeout]
  have hto : wait_for_message storeAt timeout (some transfer_process_id) =
      WaitResult.timedOut (10 * timeout) := by
    unfold wait_for_message
    rw [wait_from_timedOut storeAt _ hnone]
    congr 1
    omega
  refine ⟨?_, ?_, ?_, hres timeout, hto, ?_⟩
  · intro sAt tp tmo
    unfold _stream_pull_messages
    cases wait_for_message sAt (resolve_timeout tmo (some tmo)) (some tp) <;> rfl
  · intro sAt tmo
    unfold _stream_push_messages
    cases wait_for_message sAt (resolve_timeout tmo (some tmo)) none <;> rfl
  · intro sAt tp tmo tick bm hw
    unfold _stream_pull_messages
    rw [hw]
  · unfold _stream_pull_messages
    rw [hres timeout, hto]

/-- Witness for C9: the scenario of the spec — operation id `tx-9`, timeout
two seconds, no ingestion at all. -/
theorem C9_witness :
    (∀ (sAt : Nat → List BrokerMessage) (tp : String) (tmo : Nat),
        (_stream_pull_messages sAt tp tmo).length = 1) ∧
    (∀ (sAt : Nat → List BrokerMessage) (tmo : Nat),
        (_stream_push_messages sAt tmo).length = 1) ∧
    (∀ (sAt : Nat → List BrokerMessage) (tp : String) (tmo tick : Nat)
        (bm : BrokerMessage),
        wait_for_message sAt (resolve_timeout tmo (some tmo)) (some tp) =
          WaitResult.found tick bm →
        _stream_pull_messages sAt tp tmo = [SSEFrame.message bm]) ∧
    resolve_timeout 2 (some 2) = 2 ∧
    wait_for_message (fun _ => []) 2 (some "tx-9") = WaitResult.timedOut (10 * 2) ∧
    _stream_pull_messages (fun _ => []) "tx-9" 2 = [SSEFrame.error] :=
  C9_stream_emits_single_frame (fun _ => []) "tx-9" 2 (fun _ => rfl)

/-- Claim C10: the consumer facade replaces both an omitted timeout and a
passed timeout of `0` by its default timeout before delegating to
`process_message`, so no zero-second wait can be requested through the
facade, even though the underlying `wait_for_message` raises
`asyncio.TimeoutError` immediately at timeout `0`. -/
theorem C10_facade_zero_timeout_uses_default (default_timeout : Nat)
    (auto_acknowledge : Bool) (messages : List BrokerMessage)
    (expected_id : Option String) (outcome : CallbackOutcome)
    (storeAt : Nat → List BrokerMessage) :
    get_message default_timeout auto_acknowledge messages expected_id (some 0)
        outcome =
      get_message default_timeout auto_acknowledge messages expected_id none
        outcome ∧
    resolve_timeout default_timeout (some 0) = default_timeout ∧
    resolve_timeout default_timeout none = default_timeout ∧
    (∀ t, t ≠ 0 → resolve_timeout default_timeout (some t) = t) ∧
    wait_for_message storeAt 0 expected_id = WaitResult.timedOut 0 := by
  refine ⟨rfl, rfl, rfl, ?_, rfl⟩
  intro t ht
  simp [resolve_timeout, ht]

/-- Witness for C10: default timeout 60, a non-zero passed timeout 5, and
the immediate raise of the underlying wait at timeout 0. -/
theorem C10_witness :
    resolve_timeout 60 (some 5) = 5 ∧
    get_message 60 false [] none (some 0) CallbackOutcome.ok =
      get_message 60 false [] none none CallbackOutcome.ok ∧
    wait_for_message (fun _ => []) 0 none = WaitResult.timedOut 0 := by
  have h := C10_facade_zero_timeout_uses_default 60 false [] none
    CallbackOutcome.ok (fun _ => [])
  exact ⟨h.2.2.2.1 5 (by decide), h.1, h.2.2.2.2⟩
